import Mathlib

/-!
Shallow embedding of the offline-first ads cache manager
(`src/services/adsService.ts` of the ads-sdk repository).

Modelling conventions:
* JavaScript promises that can reject are modelled with `Except AdsError`.
* The two persisted string keys (`dj_ads_cache`, `dj_ads_cache_timestamp`)
  are the only keys the service touches, so the key-value store is modelled
  as a record with one cell per key.  The payload cell holds either a JSON
  text that parses to a list of ads (`CacheVal.good`) or a malformed text
  (`CacheVal.malformed`); the timestamp cell holds the parsed epoch-ms value.
* External effects (the HTTP fetch and each storage primitive call site)
  are resolved by an `Env` oracle fixed for one public-API call: `fetch`
  maps the requested URL to an HTTP outcome, and one Bool per storage call
  site says whether that call throws.
* The fire-and-forget background refresh of the stale path completes after
  the call returns; a call's result therefore carries the store as it stands
  once any background work has settled (`CallResult.store`), together with
  the number of network fetches the call issued (`CallResult.fetchCount`).
* The process-wide mutable module configuration (`API_URL`,
  `INTAKE_BASE_URL`, `CACHE_DURATION`) is threaded explicitly as `Config`;
  each operation receives the configuration current at the moment it runs.
  `fallbackAds` is a module-level constant in the source, evaluated once at
  module load with the default configuration, and is embedded accordingly.
-/

namespace AdsSDK

/-- The `accentColor` union type of `AdConfig` (`types`: `'blue' | 'green' | 'purple' | 'orange' | 'pink'`). -/
inductive AccentColor
  | blue
  | green
  | purple
  | orange
  | pink
  deriving Repr, DecidableEq

/-- Public ad record shape (`AdConfig` in `types`). `transformService` and the
fallback list always populate `features`, so it is a plain list here. -/
structure AdConfig where
  id : String
  title : String
  tagline : String
  description : String
  ctaText : String
  ctaUrl : String
  icon : String
  accentColor : AccentColor
  features : List String
  deriving Repr, DecidableEq

/-- Wire-shape service record (`APIServiceConfig` in `types`).  `features` is
optional here because `transformService` defends with `service.features ?? []`. -/
structure APIServiceConfig where
  id : String
  title : String
  tagline : String
  description : String
  features : Option (List String)
  primaryCtaLabel : String
  primaryCtaId : String
  intakeUrl : String
  accent : String
  deriving Repr, DecidableEq

/-- Remote payload (`ContentPayload` in `types`).  `services` is optional
because `fetchAdsFromAPI` uses `payload.services ?? []`. -/
structure ContentPayload where
  version : String
  generatedAt : String
  services : Option (List APIServiceConfig)
  deriving Repr, DecidableEq

/-- The process-wide mutable module configuration: the `let` bindings
`API_URL`, `INTAKE_BASE_URL`, `CACHE_DURATION` of `adsService.ts`. -/
structure Config where
  apiUrl : String
  intakeBaseUrl : String
  cacheDuration : Int
  deriving Repr, DecidableEq

/-- The module-initializer values of the three mutable bindings. -/
def defaultConfig : Config :=
  { apiUrl := "https://davidjgrimsley.com/api/content"
    intakeBaseUrl := "https://davidjgrimsley.com"
    cacheDuration := 1000 * 60 * 60 }

/-- Argument of `initializeAdsSDK` (`AdsSDKConfig` in `types`); every field
optional.  A wholly absent argument is modelled by all fields `none`. -/
structure AdsSDKConfig where
  apiUrl : Option String := none
  intakeBaseUrl : Option String := none
  cacheDuration : Option Int := none
  deriving Repr, DecidableEq

/-- `url.replace(/\/$/, '')`: drops a single trailing slash if present. -/
def stripTrailingSlash (s : String) : String :=
  if s.data.getLast? = some '/' then { data := s.data.dropLast } else s

/-- `initializeAdsSDK(config?)`: overwrites each configuration binding whose
field is supplied (and, for the URLs, truthy, i.e. non-empty — `if
(config?.apiUrl)`); a negative `cacheDuration` is ignored with a warning. -/
def initializeAdsSDK (cfg : Config) (c : AdsSDKConfig) : Config :=
  let cfg1 :=
    match c.apiUrl with
    | none => cfg
    | some u => if u = "" then cfg else { cfg with apiUrl := stripTrailingSlash u }
  let cfg2 :=
    match c.intakeBaseUrl with
    | none => cfg1
    | some u => if u = "" then cfg1 else { cfg1 with intakeBaseUrl := stripTrailingSlash u }
  match c.cacheDuration with
  | none => cfg2
  | some d => if d < 0 then cfg2 else { cfg2 with cacheDuration := d }

/-- Contents of the `dj_ads_cache` key: a JSON text that either parses back to
an ad list or makes `JSON.parse` throw. -/
inductive CacheVal
  | good (ads : List AdConfig)
  | malformed
  deriving Repr, DecidableEq

/-- The persistent key-value store restricted to the two keys the service
uses: `dj_ads_cache` (payload) and `dj_ads_cache_timestamp` (epoch ms). -/
structure Store where
  cache : Option CacheVal
  ts : Option Nat
  deriving Repr, DecidableEq

/-- First-run store: neither key present. -/
def emptyStore : Store := { cache := none, ts := none }

/-- Outcome of `response.json()`: rejects on a malformed body, otherwise a payload. -/
inductive Body
  | malformed
  | payload (p : ContentPayload)
  deriving Repr, DecidableEq

/-- Outcome of `fetch(url)`: transport-level rejection, or a response with an
HTTP status and a body. -/
inductive FetchResp
  | reject
  | response (status : Nat) (body : Body)
  deriving Repr, DecidableEq

/-- `response.ok`: status in the 2xx range. -/
def respOk (status : Nat) : Bool := 200 ≤ status && status < 300

/-- Error taxonomy of the spec: NetworkFailure (transport or non-2xx),
ParseFailure, StorageFailure. -/
inductive AdsError
  | network
  | apiStatus (status : Nat)
  | parse
  | storage
  deriving Repr, DecidableEq

/-- Oracle resolving the external effects of one public-API call:
`now` is `Date.now()` during the call, `bgNow` is `Date.now()` when a
background (stale-path) refresh writes its timestamp, `fetch` gives the HTTP
outcome for the URL requested, and each Bool tells whether the corresponding
storage primitive call site throws. -/
structure Env where
  now : Nat
  bgNow : Nat
  fetch : String → FetchResp
  getCacheThrows : Bool
  getTsThrows : Bool
  setCacheThrows : Bool
  setTsThrows : Bool
  removeCacheThrows : Bool
  removeTsThrows : Bool

/-- `iconMap`: service id → icon name. -/
def iconMap : List (String × String) :=
  [("app-development", "phone-portrait-outline"),
   ("website-building", "globe-outline"),
   ("game-development", "game-controller-outline"),
   ("tutoring", "school-outline"),
   ("online-presence", "trending-up-outline")]

/-- `colorMap`: accent token → accent color. -/
def colorMap : List (String × AccentColor) :=
  [("#0E668B", AccentColor.blue),
   ("#1E9E70", AccentColor.green),
   ("#723B80", AccentColor.purple),
   ("#EEA444", AccentColor.orange),
   ("#D63C83", AccentColor.pink)]

/-- `fallbackAds`: the static fallback list.  It is a module-level constant in
the source, so its `ctaUrl` template literals capture `INTAKE_BASE_URL` as it
stands at module load — the default value — regardless of any later
`initializeAdsSDK` call. -/
def fallbackAds : List AdConfig :=
  [{ id := "creative-strategy"
     title := "Creative Strategy Sprint"
     tagline := "Clarify your direction and ship faster."
     description := "A focused 1:1 sprint to align your creative goals, audience, and execution plan. Perfect for creators launching a new project or pivoting into a new niche."
     features := ["Roadmap for your next 90 days",
                  "Positioning & audience alignment",
                  "Content and distribution checklist"]
     ctaText := "Book a Strategy Sprint"
     ctaUrl := defaultConfig.intakeBaseUrl ++ "/creative-strategy"
     icon := "sparkles"
     accentColor := AccentColor.purple },
   { id := "portfolio-review"
     title := "Portfolio Review"
     tagline := "Make your work stand out with clarity."
     description := "Get targeted, practical feedback on your portfolio, project pages, and case studies. Walk away with fixes you can implement immediately."
     features := ["Portfolio positioning feedback",
                  "Case study structure & flow",
                  "Actionable next steps"]
     ctaText := "Schedule a Review"
     ctaUrl := defaultConfig.intakeBaseUrl ++ "/portfolio-review"
     icon := "layers"
     accentColor := AccentColor.blue },
   { id := "brand-identity"
     title := "Brand Identity Boost"
     tagline := "A cohesive look that feels premium."
     description := "Refresh your visuals and message with a lightweight brand identity package tailored to creative teams and indie studios."
     features := ["Palette + typography direction",
                  "Moodboard and brand voice",
                  "Quick-start asset kit"]
     ctaText := "Explore Branding"
     ctaUrl := defaultConfig.intakeBaseUrl ++ "/brand-identity"
     icon := "color-palette"
     accentColor := AccentColor.orange },
   { id := "launch-support"
     title := "Launch Support"
     tagline := "Build hype and land your first fans."
     description := "From pre-launch planning to post-launch momentum, get a proven playbook and hands-on support for your next release."
     features := ["Launch checklist & timeline",
                  "Landing page feedback",
                  "Post-launch growth plan"]
     ctaText := "Plan a Launch"
     ctaUrl := defaultConfig.intakeBaseUrl ++ "/launch-support"
     icon := "rocket"
     accentColor := AccentColor.green }]

/-- `transformService`: pure mapping of one remote record into an `AdConfig`,
reading `INTAKE_BASE_URL` from the configuration current at call time. -/
def transformService (cfg : Config) (service : APIServiceConfig) : AdConfig :=
  { id := service.id
    title := service.title
    tagline := service.tagline
    description := service.description
    ctaText := service.primaryCtaLabel
    ctaUrl := cfg.intakeBaseUrl ++ service.intakeUrl
    icon := (iconMap.lookup service.id).getD "information-circle-outline"
    accentColor := (colorMap.lookup service.accent).getD AccentColor.blue
    features := service.features.getD [] }

/-- `getCachedAds`: reads the payload key; a storage throw, an absent entry,
or a `JSON.parse` failure all yield `null` (the whole body is in a
`try`/`catch` returning `null`). -/
def getCachedAds (env : Env) (s : Store) : Option (List AdConfig) :=
  if env.getCacheThrows then none
  else
    match s.cache with
    | none => none
    | some CacheVal.malformed => none
    | some (CacheVal.good ads) => some ads

/-- `setCachedAds`: writes the payload key then the timestamp key inside one
`try`/`catch` that swallows storage errors; if the first write throws the
second is not attempted, and a throw never escapes.  `writeTime` is the
`Date.now()` of the timestamp write. -/
def setCachedAds (env : Env) (writeTime : Nat) (ads : List AdConfig) (s : Store) : Store :=
  if env.setCacheThrows then s
  else
    let s1 : Store := { s with cache := some (CacheVal.good ads) }
    if env.setTsThrows then s1
    else { s1 with ts := some writeTime }

/-- `isCacheExpired`: a storage throw or an absent timestamp count as expired;
otherwise the entry is expired when its age exceeds `CACHE_DURATION` read from
the configuration current at call time. -/
def isCacheExpired (cfg : Config) (env : Env) (s : Store) : Bool :=
  if env.getTsThrows then true
  else
    match s.ts with
    | none => true
    | some t => decide ((env.now : Int) - (t : Int) > cfg.cacheDuration)

/-- `fetchAdsFromAPI`: `fetch(API_URL)` with the current `API_URL`; a
transport rejection, a non-2xx status, or a body that fails to parse each
reject; on success the (possibly missing) `services` list is mapped through
`transformService`. -/
def fetchAdsFromAPI (cfg : Config) (env : Env) : Except AdsError (List AdConfig) :=
  match env.fetch cfg.apiUrl with
  | FetchResp.reject => Except.error AdsError.network
  | FetchResp.response status body =>
    if respOk status = false then Except.error (AdsError.apiStatus status)
    else
      match body with
      | Body.malformed => Except.error AdsError.parse
      | Body.payload p => Except.ok ((p.services.getD []).map (transformService cfg))

/-- Observable outcome of one `getAllAds` call: the resolved list, the store
once any background refresh has settled, and how many network fetches the
call issued. -/
structure CallResult where
  ads : List AdConfig
  store : Store
  fetchCount : Nat
  deriving Repr, DecidableEq

/-- `getAllAds`: offline-first read.  Fresh cache → return it with no fetch;
stale cache → return it and fire a background refresh whose success
overwrites the cache and whose failure is swallowed; no cache → await a fetch,
persisting and returning its result (the fallback list if it is empty), or
returning the fallback list without persisting on failure. -/
def getAllAds (cfg : Config) (env : Env) (s : Store) : CallResult :=
  let cachedAds := getCachedAds env s
  let cacheExpired := isCacheExpired cfg env s
  match cachedAds with
  | some ads =>
    if cacheExpired = false then
      { ads := ads, store := s, fetchCount := 0 }
    else
      match fetchAdsFromAPI cfg env with
      | Except.ok freshAds =>
        { ads := ads, store := setCachedAds env env.bgNow freshAds s, fetchCount := 1 }
      | Except.error _ =>
        { ads := ads, store := s, fetchCount := 1 }
  | none =>
    match fetchAdsFromAPI cfg env with
    | Except.ok freshAds =>
      { ads := if freshAds.isEmpty then fallbackAds else freshAds
        store := setCachedAds env env.now freshAds s
        fetchCount := 1 }
    | Except.error _ =>
      { ads := fallbackAds, store := s, fetchCount := 1 }

/-- Observable outcome of one `refreshAds` call. -/
structure RefreshResult where
  outcome : Except AdsError (List AdConfig)
  store : Store
  fetchCount : Nat
  deriving Repr

/-- `refreshAds`: unconditionally fetches; a fetch rejection propagates to the
caller with the store untouched; on success the list is persisted (storage
errors swallowed inside `setCachedAds`) and returned. -/
def refreshAds (cfg : Config) (env : Env) (s : Store) : RefreshResult :=
  match fetchAdsFromAPI cfg env with
  | Except.error e => { outcome := Except.error e, store := s, fetchCount := 1 }
  | Except.ok freshAds =>
    { outcome := Except.ok freshAds
      store := setCachedAds env env.now freshAds s
      fetchCount := 1 }

/-- `clearAdsCache`: removes the payload key then the timestamp key with no
`try`/`catch`; a throw of either removal rejects the whole call, and a throw
of the first skips the second. -/
def clearAdsCache (env : Env) (s : Store) : Except AdsError Unit × Store :=
  if env.removeCacheThrows then (Except.error AdsError.storage, s)
  else
    let s1 : Store := { s with cache := none }
    if env.removeTsThrows then (Except.error AdsError.storage, s1)
    else (Except.ok (), { s1 with ts := none })


/-!
Concrete fixtures (used by witnesses and counterexamples) and helper lemmas
shared between the claim theorems.
-/

def envReject : Env :=
  { now := 0, bgNow := 0, fetch := fun _ => FetchResp.reject
    getCacheThrows := false, getTsThrows := false
    setCacheThrows := false, setTsThrows := false
    removeCacheThrows := false, removeTsThrows := false }

def svcSample : APIServiceConfig :=
  { id := "mystery-service", title := "Mystery", tagline := "tag"
    description := "desc", features := none, primaryCtaLabel := "Go"
    primaryCtaId := "cta-1", intakeUrl := "/mystery", accent := "#123456" }

def svcKnown : APIServiceConfig :=
  { id := "tutoring", title := "Tutoring", tagline := "t", description := "d"
    features := some ["a", "b"], primaryCtaLabel := "Book"
    primaryCtaId := "cta-2", intakeUrl := "/tutoring", accent := "#1E9E70" }

def adSample : AdConfig := transformService defaultConfig svcSample

def payloadSample : ContentPayload :=
  { version := "1", generatedAt := "2026-01-01T00:00:00Z", services := some [svcSample] }

def payloadEmpty : ContentPayload :=
  { version := "1", generatedAt := "2026-01-01T00:00:00Z", services := some [] }

def envOk : Env :=
  { now := 5000000, bgNow := 5000001
    fetch := fun _ => FetchResp.response 200 (Body.payload payloadSample)
    getCacheThrows := false, getTsThrows := false
    setCacheThrows := false, setTsThrows := false
    removeCacheThrows := false, removeTsThrows := false }

def envEmptyOk : Env :=
  { envOk with fetch := fun _ => FetchResp.response 200 (Body.payload payloadEmpty) }

def envHalfFail : Env := { envReject with removeCacheThrows := true }

def staleStore : Store := { cache := some (CacheVal.good [adSample]), ts := some 0 }

def freshStore : Store := { cache := some (CacheVal.good [adSample]), ts := some 5000000 }

theorem getCachedAds_none (env : Env) (s : Store) (h : s.cache = none) :
    getCachedAds env s = none := by
  simp [getCachedAds, h]

theorem isCacheExpired_false_of_age (cfg : Config) (env : Env) (s : Store) (t : Nat)
    (hts : s.ts = some t) (hno : env.getTsThrows = false)
    (hage : (env.now : Int) - (t : Int) ≤ cfg.cacheDuration) :
    isCacheExpired cfg env s = false := by
  simp [isCacheExpired, hno, hts]
  omega

theorem isCacheExpired_true_of_age (cfg : Config) (env : Env) (s : Store) (t : Nat)
    (hts : s.ts = some t) (hno : env.getTsThrows = false)
    (hage : (env.now : Int) - (t : Int) > cfg.cacheDuration) :
    isCacheExpired cfg env s = true := by
  simp [isCacheExpired, hno, hts]
  omega

theorem getAllAds_fresh (cfg : Config) (env : Env) (s : Store) (c : List AdConfig)
    (hc : getCachedAds env s = some c) (hexp : isCacheExpired cfg env s = false) :
    getAllAds cfg env s = { ads := c, store := s, fetchCount := 0 } := by
  simp [getAllAds, hc, hexp]

theorem getAllAds_absent_count (cfg : Config) (env : Env) (s : Store)
    (h : s.cache = none) : (getAllAds cfg env s).fetchCount = 1 := by
  simp only [getAllAds, getCachedAds_none env s h]
  split <;> rfl


/-!
Claim theorems.  Each claim of the specification is settled by one theorem
below (with a closed witness instance when the theorem carries hypotheses,
and a closed counterexample where the claim fails on the code).
-/

def envOkSetThrows : Env := { envOk with setCacheThrows := true }

def cfgCustom : Config :=
  initializeAdsSDK defaultConfig
    { apiUrl := none, intakeBaseUrl := some "https://example.com", cacheDuration := none }

theorem getAllAds_stale_shape (cfg : Config) (env : Env) (s : Store) (c : List AdConfig)
    (hc : getCachedAds env s = some c) (hexp : isCacheExpired cfg env s = true) :
    getAllAds cfg env s =
      match fetchAdsFromAPI cfg env with
      | Except.ok f =>
        { ads := c, store := setCachedAds env env.bgNow f s, fetchCount := 1 }
      | Except.error _ => { ads := c, store := s, fetchCount := 1 } := by
  simp [getAllAds, hc, hexp]

theorem initializeAdsSDK_cacheDuration (cfg : Config) (c : AdsSDKConfig) (d : Int)
    (hd : c.cacheDuration = some d) (hge : 0 ≤ d) :
    (initializeAdsSDK cfg c).cacheDuration = d := by
  have hnl : ¬ d < 0 := not_lt.2 hge
  cases ha : c.apiUrl <;> cases hb : c.intakeBaseUrl <;>
    simp only [initializeAdsSDK, ha, hb, hd, hnl] <;> split_ifs <;> simp_all

theorem initializeAdsSDK_intakeBaseUrl (cfg : Config) (c : AdsSDKConfig) (b : String)
    (hb : c.intakeBaseUrl = some b) (hne : ¬ b = "") :
    (initializeAdsSDK cfg c).intakeBaseUrl = stripTrailingSlash b := by
  cases ha : c.apiUrl <;> cases hd : c.cacheDuration <;>
    simp only [initializeAdsSDK, ha, hb, hd, hne] <;> split_ifs <;> simp_all

theorem initializeAdsSDK_apiUrl (cfg : Config) (c : AdsSDKConfig) (u : String)
    (hu : c.apiUrl = some u) (hne : ¬ u = "") :
    (initializeAdsSDK cfg c).apiUrl = stripTrailingSlash u := by
  cases hb : c.intakeBaseUrl <;> cases hd : c.cacheDuration <;>
    simp only [initializeAdsSDK, hb, hu, hd, hne] <;> split_ifs <;> simp_all

/-- C1: for every cache state and every combination of remote-source and
storage failures, `getAllAds` resolves (it is a total function into
`CallResult`) and returns the cached list when the cache is readable, else
the freshly fetched list when the fetch succeeds with a non-empty list, else
the static fallback list — the degradation order of the spec. -/
theorem getAllAds_degrades_in_order (cfg : Config) (env : Env) (s : Store) :
    (∀ c, getCachedAds env s = some c → (getAllAds cfg env s).ads = c) ∧
    (getCachedAds env s = none →
      ∀ f, fetchAdsFromAPI cfg env = Except.ok f → f ≠ [] →
        (getAllAds cfg env s).ads = f) ∧
    (getCachedAds env s = none →
      ∀ e, fetchAdsFromAPI cfg env = Except.error e →
        (getAllAds cfg env s).ads = fallbackAds) := by
  refine ⟨?_, ?_, ?_⟩
  · intro c hc
    simp only [getAllAds, hc]
    split
    · rfl
    · split <;> rfl
  · intro hc f hf hne
    simp only [getAllAds, hc, hf]
    simp [List.isEmpty_iff, hne]
  · intro hc e he
    simp only [getAllAds, hc, he]

theorem getAllAds_degrades_in_order_witness :
    (getAllAds defaultConfig envReject emptyStore).ads = fallbackAds :=
  (getAllAds_degrades_in_order defaultConfig envReject emptyStore).2.2 rfl AdsError.network rfl

/-- C2: in the Stale state (cache entry readable, timestamp present and older
than `cacheDuration`), `getAllAds` returns the previously cached list and
issues exactly one (background) fetch; if the fetch succeeds and the store
accepts the writes, both the payload and the timestamp key are overwritten;
if it fails, the stale entry is left untouched and no error reaches the
caller. -/
theorem getAllAds_stale_while_revalidate (cfg : Config) (env : Env) (s : Store)
    (c : List AdConfig) (t : Nat)
    (hc : getCachedAds env s = some c) (hts : s.ts = some t)
    (hno : env.getTsThrows = false)
    (hage : (env.now : Int) - (t : Int) > cfg.cacheDuration) :
    (getAllAds cfg env s).ads = c ∧
    (getAllAds cfg env s).fetchCount = 1 ∧
    (∀ f, fetchAdsFromAPI cfg env = Except.ok f →
      env.setCacheThrows = false → env.setTsThrows = false →
      (getAllAds cfg env s).store =
        { cache := some (CacheVal.good f), ts := some env.bgNow }) ∧
    (∀ e, fetchAdsFromAPI cfg env = Except.error e →
      (getAllAds cfg env s).store = s) := by
  have hexp : isCacheExpired cfg env s = true :=
    isCacheExpired_true_of_age cfg env s t hts hno hage
  have hst := getAllAds_stale_shape cfg env s c hc hexp
  refine ⟨?_, ?_, ?_, ?_⟩
  · rw [hst]; split <;> rfl
  · rw [hst]; split <;> rfl
  · intro f hf hw1 hw2
    rw [hst, hf]
    simp [setCachedAds, hw1, hw2]
  · intro e he
    rw [hst, he]

theorem getAllAds_stale_while_revalidate_witness :
    (getAllAds defaultConfig envOk staleStore).ads = [adSample] ∧
    (getAllAds defaultConfig envOk staleStore).fetchCount = 1 ∧
    (getAllAds defaultConfig envOk staleStore).store =
      { cache := some (CacheVal.good [transformService defaultConfig svcSample])
        ts := some 5000001 } := by
  have h := getAllAds_stale_while_revalidate defaultConfig envOk staleStore [adSample] 0
    rfl rfl rfl (by decide)
  exact ⟨h.1, h.2.1, h.2.2.1 [transformService defaultConfig svcSample] rfl rfl rfl⟩

/-- C3: in the Absent state (no payload entry) with a failing remote fetch,
`getAllAds` returns the static fallback list of 4 fixed entries and writes
nothing, so the store is unchanged and any subsequent call fetches from the
network again. -/
theorem getAllAds_absent_failure_fallback (cfg : Config) (env : Env) (s : Store) (e : AdsError)
    (hc : s.cache = none) (herr : fetchAdsFromAPI cfg env = Except.error e) :
    (getAllAds cfg env s).ads = fallbackAds ∧
    (getAllAds cfg env s).store = s ∧
    fallbackAds.length = 4 ∧
    (∀ cfg2 env2, (getAllAds cfg2 env2 (getAllAds cfg env s).store).fetchCount = 1) := by
  have h0 : getAllAds cfg env s = { ads := fallbackAds, store := s, fetchCount := 1 } := by
    simp [getAllAds, getCachedAds_none env s hc, herr]
  refine ⟨by rw [h0], by rw [h0], rfl, ?_⟩
  intro cfg2 env2
  rw [h0]
  exact getAllAds_absent_count cfg2 env2 s hc

theorem getAllAds_absent_failure_fallback_witness :
    (getAllAds defaultConfig envReject emptyStore).store = emptyStore ∧
    (getAllAds defaultConfig envReject
      (getAllAds defaultConfig envReject emptyStore).store).fetchCount = 1 := by
  have h := getAllAds_absent_failure_fallback defaultConfig envReject emptyStore
    AdsError.network rfl rfl
  exact ⟨h.2.1, h.2.2.2 defaultConfig envReject⟩

/-- C4: `refreshAds` always performs exactly one remote fetch; on fetch
failure it rejects with that error and leaves the store (payload and
timestamp) unmodified; on fetch success it resolves with the fresh list for
every storage-write behaviour, including a throwing persist step. -/
theorem refreshAds_error_propagation (cfg : Config) (env : Env) (s : Store) :
    (refreshAds cfg env s).fetchCount = 1 ∧
    (∀ e, fetchAdsFromAPI cfg env = Except.error e →
      (refreshAds cfg env s).outcome = Except.error e ∧ (refreshAds cfg env s).store = s) ∧
    (∀ f, fetchAdsFromAPI cfg env = Except.ok f →
      (refreshAds cfg env s).outcome = Except.ok f) := by
  refine ⟨?_, ?_, ?_⟩
  · simp only [refreshAds]; split <;> rfl
  · intro e he; simp [refreshAds, he]
  · intro f hf; simp [refreshAds, hf]

theorem refreshAds_error_propagation_witness :
    (refreshAds defaultConfig envReject staleStore).outcome = Except.error AdsError.network ∧
    (refreshAds defaultConfig envReject staleStore).store = staleStore ∧
    (refreshAds defaultConfig envOkSetThrows emptyStore).outcome =
      Except.ok [transformService defaultConfig svcSample] := by
  have h1 := (refreshAds_error_propagation defaultConfig envReject staleStore).2.1
    AdsError.network rfl
  have h2 := (refreshAds_error_propagation defaultConfig envOkSetThrows emptyStore).2.2
    [transformService defaultConfig svcSample] rfl
  exact ⟨h1.1, h1.2, h2⟩

/-- C5: in the Fresh state (cache entry readable, timestamp present and aged
at most `cacheDuration`), `getAllAds` returns the cached list, leaves the
store unchanged, and performs zero network fetches. -/
theorem getAllAds_fresh_no_network (cfg : Config) (env : Env) (s : Store)
    (c : List AdConfig) (t : Nat)
    (hc : getCachedAds env s = some c) (hts : s.ts = some t)
    (hno : env.getTsThrows = false)
    (hage : (env.now : Int) - (t : Int) ≤ cfg.cacheDuration) :
    getAllAds cfg env s = { ads := c, store := s, fetchCount := 0 } :=
  getAllAds_fresh cfg env s c hc (isCacheExpired_false_of_age cfg env s t hts hno hage)

theorem getAllAds_fresh_no_network_witness :
    getAllAds defaultConfig envOk freshStore =
      { ads := [adSample], store := freshStore, fetchCount := 0 } :=
  getAllAds_fresh_no_network defaultConfig envOk freshStore [adSample] 5000000
    rfl rfl rfl (by decide)

/-- C6 counterexample: in an environment where only the payload-key removal
throws (and the timestamp-key removal would succeed), `clearAdsCache`
rejects with a StorageFailure — the claim predicts it resolves when exactly
one of the two removals fails. -/
theorem clearAdsCache_partial_failure_rejects :
    envHalfFail.removeCacheThrows = true ∧ envHalfFail.removeTsThrows = false ∧
    (clearAdsCache envHalfFail staleStore).1 = Except.error AdsError.storage :=
  ⟨rfl, rfl, rfl⟩

/-- C6 amended: `clearAdsCache` resolves iff neither removal throws (a throw
of either removal rejects the call; when the payload removal throws, the
timestamp removal is not attempted); on success both keys are removed, so
clearing an already-absent cache is not an error; every rejection is a
StorageFailure. -/
theorem clearAdsCache_amended (env : Env) (s : Store) :
    ((clearAdsCache env s).1 = Except.ok () ↔
      env.removeCacheThrows = false ∧ env.removeTsThrows = false) ∧
    (env.removeCacheThrows = false → env.removeTsThrows = false →
      clearAdsCache env s = (Except.ok (), emptyStore)) ∧
    ((clearAdsCache env s).1 = Except.ok () ∨
      (clearAdsCache env s).1 = Except.error AdsError.storage) := by
  cases h1 : env.removeCacheThrows <;> cases h2 : env.removeTsThrows <;>
    simp [clearAdsCache, h1, h2, emptyStore]

theorem clearAdsCache_amended_witness :
    clearAdsCache envReject staleStore = (Except.ok (), emptyStore) :=
  (clearAdsCache_amended envReject staleStore).2.1 rfl rfl

/-- C7 counterexample: after `initializeAdsSDK` sets `intakeBaseUrl` to
`https://example.com`, an Absent-state `getAllAds` whose fetch fails returns
a list whose first `ctaUrl` is still composed from the earlier default
intake base URL (`fallbackAds` is evaluated once at module load), so the
public API returns a list snapshotting an earlier configuration value. -/
theorem fallback_snapshot_counterexample :
    cfgCustom.intakeBaseUrl = "https://example.com" ∧
    ((getAllAds cfgCustom envReject emptyStore).ads.map AdConfig.ctaUrl).head? =
      some "https://davidjgrimsley.com/creative-strategy" ∧
    ("https://davidjgrimsley.com/creative-strategy" : String) ≠
      "https://example.com" ++ "/creative-strategy" :=
  ⟨by decide, rfl, by decide⟩

/-- C7 amended: every read of `apiUrl`, `intakeBaseUrl` and `cacheDuration`
by the operations observes the configuration current at the moment the
operation executes, so a mutation via `initializeAdsSDK` takes effect on the
next operation — except that the static fallback list's `ctaUrl`s are frozen
at module load with the default intake base URL. -/
theorem config_read_at_call_time_amended (cfg : Config) (upd : AdsSDKConfig) (env : Env)
    (s : Store) (svc : APIServiceConfig) :
    (∀ d, upd.cacheDuration = some d → 0 ≤ d →
      (initializeAdsSDK cfg upd).cacheDuration = d) ∧
    (∀ b, upd.intakeBaseUrl = some b → b ≠ "" →
      (transformService (initializeAdsSDK cfg upd) svc).ctaUrl =
        stripTrailingSlash b ++ svc.intakeUrl) ∧
    (∀ u, upd.apiUrl = some u → u ≠ "" →
      env.fetch (stripTrailingSlash u) = FetchResp.reject →
      fetchAdsFromAPI (initializeAdsSDK cfg upd) env = Except.error AdsError.network) ∧
    (∀ t d, s.ts = some t → env.getTsThrows = false → upd.cacheDuration = some d → 0 ≤ d →
      isCacheExpired (initializeAdsSDK cfg upd) env s =
        decide ((env.now : Int) - (t : Int) > d)) ∧
    fallbackAds.map AdConfig.ctaUrl =
      [defaultConfig.intakeBaseUrl ++ "/creative-strategy",
       defaultConfig.intakeBaseUrl ++ "/portfolio-review",
       defaultConfig.intakeBaseUrl ++ "/brand-identity",
       defaultConfig.intakeBaseUrl ++ "/launch-support"] := by
  refine ⟨?_, ?_, ?_, ?_, rfl⟩
  · intro d hd hge
    exact initializeAdsSDK_cacheDuration cfg upd d hd hge
  · intro b hb hne
    simp [transformService, initializeAdsSDK_intakeBaseUrl cfg upd b hb hne]
  · intro u hu hne hrej
    simp [fetchAdsFromAPI, initializeAdsSDK_apiUrl cfg upd u hu hne, hrej]
  · intro t d hts hno hd hge
    simp [isCacheExpired, hno, hts, initializeAdsSDK_cacheDuration cfg upd d hd hge]

def updSample : AdsSDKConfig :=
  { apiUrl := some "https://example.com/api/"
    intakeBaseUrl := some "https://example.com"
    cacheDuration := some 60000 }

theorem config_read_at_call_time_amended_witness :
    (initializeAdsSDK defaultConfig updSample).cacheDuration = 60000 ∧
    (transformService (initializeAdsSDK defaultConfig updSample) svcSample).ctaUrl =
      "https://example.com" ++ "/mystery" ∧
    fetchAdsFromAPI (initializeAdsSDK defaultConfig updSample) envReject =
      Except.error AdsError.network := by
  have h := config_read_at_call_time_amended defaultConfig updSample envReject
    emptyStore svcSample
  refine ⟨h.1 60000 rfl (by decide), ?_, ?_⟩
  · have hb := h.2.1 "https://example.com" rfl (by decide)
    exact hb.trans (by decide)
  · exact h.2.2.1 "https://example.com/api/" rfl (by decide) rfl

/-- C8: the transformer maps the accent token through the color table with
default `blue` for unknown tokens, the record id through the icon table with
default `information-circle-outline` for unknown ids, sets `ctaUrl` to the
currently configured intake base concatenated with the relative
`intakeUrl`, and copies `features` verbatim (empty if absent); a successful
fetch applies it as an order-preserving `List.map` over the payload's
services, a missing `services` field counting as the empty list. -/
theorem transformService_spec (cfg : Config) (svc : APIServiceConfig) (env : Env)
    (p : ContentPayload) (status : Nat) :
    (colorMap.lookup svc.accent = none →
      (transformService cfg svc).accentColor = AccentColor.blue) ∧
    (∀ col, colorMap.lookup svc.accent = some col →
      (transformService cfg svc).accentColor = col) ∧
    (iconMap.lookup svc.id = none →
      (transformService cfg svc).icon = "information-circle-outline") ∧
    (∀ ic, iconMap.lookup svc.id = some ic → (transformService cfg svc).icon = ic) ∧
    (transformService cfg svc).ctaUrl = cfg.intakeBaseUrl ++ svc.intakeUrl ∧
    (transformService cfg svc).features = svc.features.getD [] ∧
    (env.fetch cfg.apiUrl = FetchResp.response status (Body.payload p) →
      respOk status = true →
      fetchAdsFromAPI cfg env = Except.ok ((p.services.getD []).map (transformService cfg))) := by
  refine ⟨?_, ?_, ?_, ?_, rfl, rfl, ?_⟩
  · intro h; simp [transformService, h]
  · intro col h; simp [transformService, h]
  · intro h; simp [transformService, h]
  · intro ic h; simp [transformService, h]
  · intro hf hok; simp [fetchAdsFromAPI, hf, hok]

theorem transformService_spec_witness :
    (transformService defaultConfig svcSample).accentColor = AccentColor.blue ∧
    (transformService defaultConfig svcSample).icon = "information-circle-outline" ∧
    (transformService defaultConfig svcKnown).accentColor = AccentColor.green ∧
    (transformService defaultConfig svcKnown).icon = "school-outline" ∧
    fetchAdsFromAPI defaultConfig envOk =
      Except.ok [transformService defaultConfig svcSample] := by
  have h1 := transformService_spec defaultConfig svcSample envOk payloadSample 200
  have h2 := transformService_spec defaultConfig svcKnown envOk payloadSample 200
  refine ⟨h1.1 (by decide), h1.2.2.1 (by decide), h2.2.1 AccentColor.green (by decide),
    h2.2.2.2.1 "school-outline" (by decide), ?_⟩
  have h3 := h1.2.2.2.2.2.2 rfl (by decide)
  exact h3.trans rfl

/-- C9: after a successful `clearAdsCache`, the store equals the first-run
store (both keys removed), so a subsequent `getAllAds` is literally the same
computation as a first-ever invocation: it observes the Absent state and
issues a network fetch regardless of what was cached before. -/
theorem clear_then_getAll_absent (cfg : Config) (env env2 : Env) (s : Store)
    (h1 : env.removeCacheThrows = false) (h2 : env.removeTsThrows = false) :
    (clearAdsCache env s).2 = emptyStore ∧
    getAllAds cfg env2 (clearAdsCache env s).2 = getAllAds cfg env2 emptyStore ∧
    getCachedAds env2 (clearAdsCache env s).2 = none ∧
    (getAllAds cfg env2 (clearAdsCache env s).2).fetchCount = 1 := by
  have hstore : (clearAdsCache env s).2 = emptyStore := by
    simp [clearAdsCache, h1, h2, emptyStore]
  refine ⟨hstore, by rw [hstore], ?_, ?_⟩
  · rw [hstore]
    exact getCachedAds_none env2 emptyStore rfl
  · rw [hstore]
    exact getAllAds_absent_count cfg env2 emptyStore rfl

theorem clear_then_getAll_absent_witness :
    (clearAdsCache envReject staleStore).2 = emptyStore ∧
    (getAllAds defaultConfig envOk (clearAdsCache envReject staleStore).2).fetchCount = 1 := by
  have h := clear_then_getAll_absent defaultConfig envReject envOk staleStore rfl rfl
  exact ⟨h.1, h.2.2.2⟩

/-- C10: in the Absent state, a fetch that succeeds with an empty service
list makes `getAllAds` return the static fallback list while persisting the
empty list with a fresh timestamp; any later call within `cacheDuration`
that can read the store returns the empty cached list with zero fetches —
the fallback-on-empty substitution applies only to the fetching call. -/
theorem empty_fetch_persisted (cfg : Config) (env : Env) (s : Store)
    (hc : s.cache = none)
    (hfetch : fetchAdsFromAPI cfg env = Except.ok [])
    (hw1 : env.setCacheThrows = false) (hw2 : env.setTsThrows = false) :
    (getAllAds cfg env s).ads = fallbackAds ∧
    (getAllAds cfg env s).store =
      { cache := some (CacheVal.good []), ts := some env.now } ∧
    (∀ env2, env2.getCacheThrows = false → env2.getTsThrows = false →
      (env2.now : Int) - (env.now : Int) ≤ cfg.cacheDuration →
      getAllAds cfg env2 (getAllAds cfg env s).store =
        { ads := [], store := (getAllAds cfg env s).store, fetchCount := 0 }) := by
  have h0 : getAllAds cfg env s =
      { ads := fallbackAds
        store := { cache := some (CacheVal.good []), ts := some env.now }
        fetchCount := 1 } := by
    simp [getAllAds, getCachedAds_none env s hc, hfetch, setCachedAds, hw1, hw2]
  refine ⟨by rw [h0], by rw [h0], ?_⟩
  intro env2 hg2 ht2 hage
  rw [h0]
  exact getAllAds_fresh cfg env2 _ []
    (by simp [getCachedAds, hg2])
    (isCacheExpired_false_of_age cfg env2 _ env.now rfl ht2 hage)

theorem empty_fetch_persisted_witness :
    (getAllAds defaultConfig envEmptyOk emptyStore).ads = fallbackAds ∧
    (getAllAds defaultConfig envEmptyOk emptyStore).store =
      { cache := some (CacheVal.good []), ts := some 5000000 } ∧
    getAllAds defaultConfig envEmptyOk
        (getAllAds defaultConfig envEmptyOk emptyStore).store =
      { ads := []
        store := (getAllAds defaultConfig envEmptyOk emptyStore).store
        fetchCount := 0 } := by
  have h := empty_fetch_persisted defaultConfig envEmptyOk emptyStore rfl rfl rfl rfl
  exact ⟨h.1, h.2.1, h.2.2 envEmptyOk rfl rfl (by decide)⟩

end AdsSDK
